import Mathlib

/-! Verification of the OpenClaw OpenAI-compatible gateway bridge and the
usage-webhook delivery logic. The definitions below are shallow embeddings of
the TypeScript sources src/gateway/openai-http.ts and
extensions/usage-webhook/src/service.ts: pure data flow is translated into
Lean functions, the streaming handler's shared mutable flags become an
explicit state record threaded through a step function, and the observable
effects (SSE writes, sentinel, end of stream, event-feed emissions, webhook
posts) become an explicit action trace. -/

namespace OpenClaw

/-! Data model from src/gateway/openai-http.ts: the agent command result and
the OpenAI-shaped usage triple. Optional TypeScript fields become Option. -/

/-- Token usage record produced by the agent subsystem
(AgentCommandResult.meta.agentMeta.usage in openai-http.ts). -/
structure UsageRecord where
  input : Option Nat
  output : Option Nat
  cacheRead : Option Nat
  cacheWrite : Option Nat
  total : Option Nat
deriving DecidableEq

/-- One output payload of the agent result: an optional text segment. -/
structure AgentPayload where
  text : Option String
deriving DecidableEq

/-- The agentMeta record nested inside the result meta. -/
structure AgentMetaInner where
  provider : Option String
  usage : Option UsageRecord
deriving DecidableEq

/-- The meta record of an agent command result. -/
structure AgentResultMeta where
  durationMs : Option Nat
  agentMeta : Option AgentMetaInner
deriving DecidableEq

/-- Agent command result, as typed in openai-http.ts (AgentCommandResult). -/
structure AgentCommandResult where
  payloads : Option (List AgentPayload)
  meta : Option AgentResultMeta
deriving DecidableEq

/-- OpenAI-format usage triple (OpenAiUsage in openai-http.ts). -/
structure OpenAiUsage where
  prompt_tokens : Nat
  completion_tokens : Nat
  total_tokens : Nat
deriving DecidableEq

/-- The optional chain result?.meta?.agentMeta?.usage from
extractUsageFromResult in openai-http.ts. -/
def usageOfResult (result : Option AgentCommandResult) : Option UsageRecord :=
  ((result.bind fun r => r.meta).bind fun m => m.agentMeta).bind fun a => a.usage

/-- extractUsageFromResult from openai-http.ts lines 89-103: the all-zero
triple when the usage record is absent, otherwise prompt = input + cacheRead
+ cacheWrite, completion = output, total = the explicit total when present
else prompt + completion, with each missing field read as 0. -/
def extractUsageFromResult (result : Option AgentCommandResult) : OpenAiUsage :=
  match usageOfResult result with
  | none => { prompt_tokens := 0, completion_tokens := 0, total_tokens := 0 }
  | some usage =>
    let promptTokens := usage.input.getD 0 + usage.cacheRead.getD 0 + usage.cacheWrite.getD 0
    let completionTokens := usage.output.getD 0
    let totalTokens := usage.total.getD (promptTokens + completionTokens)
    { prompt_tokens := promptTokens, completion_tokens := completionTokens,
      total_tokens := totalTokens }

/-- The UsageExtractor contract, written from the words of spec section 4.1:
absent record gives the all-zero triple; otherwise the prompt side folds
input, cacheRead and cacheWrite, the completion side is output, and the
explicit total is trusted over the derived sum when both are available. -/
def specUsageExtract (record : Option UsageRecord) : OpenAiUsage :=
  match record with
  | none => { prompt_tokens := 0, completion_tokens := 0, total_tokens := 0 }
  | some r =>
    let prompt := r.input.getD 0 + r.cacheRead.getD 0 + r.cacheWrite.getD 0
    let completion := r.output.getD 0
    let total :=
      match r.total with
      | some t => t
      | none => prompt + completion
    { prompt_tokens := prompt, completion_tokens := completion, total_tokens := total }

/-! Webhook delivery with retry, from extensions/usage-webhook/src/service.ts
(sendWithRetry, lines 84-132). One delivery attempt is abstracted by its
observable outcome: a 2xx response, a non-2xx response with its status code,
or a thrown fetch error (timeout abort or transport failure). -/

/-- Outcome of one fetch attempt as observed by sendWithRetry. -/
inductive AttemptOutcome where
  | ok : AttemptOutcome
  | httpError : Nat → AttemptOutcome
  | exn : AttemptOutcome
deriving DecidableEq

/-- How sendWithRetry reacts to one attempt outcome: 2xx succeeds, 4xx is a
terminal client error, everything else falls through to the retry logic. -/
inductive AttemptClass where
  | success : AttemptClass
  | clientError : AttemptClass
  | retryable : AttemptClass
deriving DecidableEq

/-- Classification of an attempt outcome, following the branch structure of
sendWithRetry: response.ok returns, a 4xx status returns false without
retrying, and any other failure (5xx, timeout, transport error) is retried. -/
def classifyAttempt (o : AttemptOutcome) : AttemptClass :=
  match o with
  | AttemptOutcome.ok => AttemptClass.success
  | AttemptOutcome.httpError status =>
    if 400 ≤ status ∧ status < 500 then AttemptClass.clientError else AttemptClass.retryable
  | AttemptOutcome.exn => AttemptClass.retryable

/-- The backoff slept after a failed attempt:
Math.min(100 * Math.pow(2, attempt), 5000) from sendWithRetry. -/
def retryDelay (attempt : Nat) : Nat := min (100 * 2 ^ attempt) 5000

/-- Observable summary of one sendWithRetry call: the returned boolean, the
number of fetch attempts performed, the backoff delays slept in order, and
the number of logger.error calls. -/
structure RetryTrace where
  success : Bool
  attempts : Nat
  delays : List Nat
  errorLogs : Nat
deriving DecidableEq

/-- The retry loop of sendWithRetry. The counter attempt is the loop index
and remaining counts how many further attempts are still allowed, so the
call with remaining = maxRetries models the source loop
for attempt in 0..=maxRetries. A backoff delay is slept only when another
attempt remains, matching the guard attempt < maxRetries in the source. -/
def retryLoop (outcomes : Nat → AttemptOutcome) (attempt : Nat) : Nat → RetryTrace
  | 0 =>
    match classifyAttempt (outcomes attempt) with
    | AttemptClass.success => { success := true, attempts := 1, delays := [], errorLogs := 0 }
    | AttemptClass.clientError => { success := false, attempts := 1, delays := [], errorLogs := 1 }
    | AttemptClass.retryable => { success := false, attempts := 1, delays := [], errorLogs := 1 }
  | Nat.succ r =>
    match classifyAttempt (outcomes attempt) with
    | AttemptClass.success => { success := true, attempts := 1, delays := [], errorLogs := 0 }
    | AttemptClass.clientError => { success := false, attempts := 1, delays := [], errorLogs := 1 }
    | AttemptClass.retryable =>
      let rest := retryLoop outcomes (attempt + 1) r
      { success := rest.success, attempts := rest.attempts + 1,
        delays := retryDelay attempt :: rest.delays, errorLogs := rest.errorLogs }

/-- sendWithRetry from extensions/usage-webhook/src/service.ts, summarised as
its observable trace over the per-attempt outcomes. -/
def sendWithRetry (outcomes : Nat → AttemptOutcome) (maxRetries : Nat) : RetryTrace :=
  retryLoop outcomes 0 maxRetries

/-! The gateway's own webhook helper sendUsageWebhook from openai-http.ts
lines 105-122: a single fetch with no AbortController, no timeout and no
retry; a non-2xx response or a thrown error is only logged. -/

/-- Observable summary of one sendUsageWebhook call: number of fetch
attempts, backoff delays slept, console.error calls, and the per-attempt
timeout passed to fetch (none, since no signal is attached). -/
structure SingleSendTrace where
  attempts : Nat
  delays : List Nat
  errorLogs : Nat
  timeoutMs : Option Nat
deriving DecidableEq

/-- sendUsageWebhook from openai-http.ts: exactly one POST, failures are
logged and swallowed, nothing is retried and no timeout is installed. -/
def sendUsageWebhook (outcome : AttemptOutcome) : SingleSendTrace :=
  match outcome with
  | AttemptOutcome.ok => { attempts := 1, delays := [], errorLogs := 0, timeoutMs := none }
  | AttemptOutcome.httpError _ => { attempts := 1, delays := [], errorLogs := 1, timeoutMs := none }
  | AttemptOutcome.exn => { attempts := 1, delays := [], errorLogs := 1, timeoutMs := none }

/-! Content synthesis shared by the non-streaming responder and the
streaming finalization (openai-http.ts lines 363-370 and 501-508). -/

/-- The content assembled from the result payloads: the payload texts,
non-strings read as empty, with empty segments filtered out and the rest
joined by a blank line; the fixed fallback string when the payload array is
absent or empty. -/
def synthesizeContent (payloads : Option (List AgentPayload)) : String :=
  match payloads with
  | some ps =>
    if ps.length > 0 then
      String.intercalate "\n\n" ((ps.map fun p => p.text.getD "").filter fun s => !(s == ""))
    else "No response from OpenClaw."
  | none => "No response from OpenClaw."

/-- Truthiness of opts.usageWebhookUrl in openai-http.ts: a configured,
non-empty URL string. -/
def webhookConfigured (usageWebhookUrl : Option String) : Bool :=
  match usageWebhookUrl with
  | some url => !(url == "")
  | none => false

/-- The non-streaming success response assembled in openai-http.ts lines
346-399: HTTP 200, the synthesized content with finish_reason stop, the
extracted usage, and whether a usage webhook notification was dispatched. -/
structure ChatCompletionResponse where
  status : Nat
  content : String
  finish_reason : String
  usage : OpenAiUsage
  webhookSent : Bool
deriving DecidableEq

/-- The non-streaming responder success path of handleOpenAiHttpRequest. -/
def respondNonStreaming (usageWebhookUrl : Option String)
    (result : Option AgentCommandResult) : ChatCompletionResponse :=
  { status := 200,
    content := synthesizeContent (result.bind fun r => r.payloads),
    finish_reason := "stop",
    usage := extractUsageFromResult result,
    webhookSent := webhookConfigured usageWebhookUrl }

/-! The streaming bridge of openai-http.ts lines 408-584. The shared mutable
flags wroteRole, sawAssistantDelta and closed, together with the event-feed
subscription, become an explicit state record; one run is the fold of a step
function over the sequence of occurrences the event loop delivers: agent
events, the client-disconnect signal, and the resolution or rejection of the
background agentCommand invocation. Every externally visible effect is
recorded in an action trace. -/

/-- SSE chunk shapes written by the streaming handler. role is the
role-announcement chunk (delta role assistant, no finish_reason); content is
a streamed or synthesized content chunk (delta content, finish_reason null);
errorContent is the error-path chunk (delta content, finish_reason stop);
final is the terminal chunk (empty delta, finish_reason stop, usage). -/
inductive Chunk where
  | role : Chunk
  | content : String → Chunk
  | errorContent : String → Chunk
  | final : OpenAiUsage → Chunk
deriving DecidableEq

/-- Externally visible actions of the streaming handler: an SSE data write,
the terminal sentinel write (writeDone), ending the response (res.end),
removing the event subscription, emitting the lifecycle error event on the
internal feed, and dispatching the usage webhook notification. -/
inductive StreamAction where
  | sse : Chunk → StreamAction
  | done : StreamAction
  | endResponse : StreamAction
  | unsub : StreamAction
  | emitLifecycleError : StreamAction
  | webhook : StreamAction
deriving DecidableEq

/-- The mutable per-run state of the streaming handler. -/
structure BridgeState where
  wroteRole : Bool
  sawAssistantDelta : Bool
  closed : Bool
  subscribed : Bool
deriving DecidableEq

/-- State right after setSseHeaders: no chunk written yet, no delta seen,
not closed, event subscription installed. -/
def initBridgeState : BridgeState :=
  { wroteRole := false, sawAssistantDelta := false, closed := false, subscribed := true }

/-- Per-request configuration of one streaming run. -/
structure BridgeConfig where
  runId : String
  usageWebhookUrl : Option String
deriving DecidableEq

/-- An event published on the internal agent-event feed, as consumed by the
onAgentEvent callback: its runId, its stream tag, and the data.delta and
data.text fields when they are strings. -/
structure AgentEvent where
  runId : String
  stream : String
  delta : Option String
  text : Option String
deriving DecidableEq

/-- The occurrences driving one streaming run. -/
inductive BridgeInput where
  | agentEvent : AgentEvent → BridgeInput
  | clientClose : BridgeInput
  | agentResolve : Option AgentCommandResult → BridgeInput
  | agentReject : String → BridgeInput
deriving DecidableEq

/-- The text the handler extracts from an event: data.delta when it is a
string, else data.text when it is a string, else the empty string. -/
def eventContent (evt : AgentEvent) : String :=
  match evt.delta with
  | some d => d
  | none =>
    match evt.text with
    | some t => t
    | none => ""

/-- The onAgentEvent callback (openai-http.ts lines 415-460): events for a
different run are ignored, nothing happens once closed, only assistant
stream events with non-empty extracted text produce writes, the role chunk
is written first on the first such delta, then the content chunk. -/
def handleAgentEvent (cfg : BridgeConfig) (st : BridgeState) (evt : AgentEvent) :
    BridgeState × List StreamAction :=
  if evt.runId != cfg.runId then (st, [])
  else if st.closed then (st, [])
  else if evt.stream == "assistant" then
    if eventContent evt == "" then (st, [])
    else
      ({ st with wroteRole := true, sawAssistantDelta := true },
        (if st.wroteRole then [] else [StreamAction.sse Chunk.role])
          ++ [StreamAction.sse (Chunk.content (eventContent evt))])
  else (st, [])

/-- The req close listener (openai-http.ts lines 462-465): mark closed and
remove the subscription. -/
def handleClose (st : BridgeState) : BridgeState × List StreamAction :=
  ({ st with closed := true, subscribed := false }, [StreamAction.unsub])

/-- Successful resolution of the background agentCommand invocation
(openai-http.ts lines 483-553 plus the finally block): discarded when
already closed; otherwise synthesize the role and content chunks when no
delta was streamed, write the terminal usage chunk, dispatch the webhook
when configured, then unsubscribe, write the sentinel and end the stream. -/
def handleResolve (cfg : BridgeConfig) (st : BridgeState)
    (result : Option AgentCommandResult) : BridgeState × List StreamAction :=
  if st.closed then (st, [])
  else
    ({ wroteRole := st.wroteRole || !st.sawAssistantDelta,
       sawAssistantDelta := true, closed := true, subscribed := false },
      (if st.sawAssistantDelta then []
       else
         (if st.wroteRole then [] else [StreamAction.sse Chunk.role])
           ++ [StreamAction.sse (Chunk.content (synthesizeContent (result.bind fun r => r.payloads)))])
        ++ [StreamAction.sse (Chunk.final (extractUsageFromResult result))]
        ++ (if webhookConfigured cfg.usageWebhookUrl then [StreamAction.webhook] else [])
        ++ [StreamAction.unsub, StreamAction.done, StreamAction.endResponse])

/-- Rejection of the background agentCommand invocation (openai-http.ts
lines 554-583): discarded when already closed; otherwise write the error
content chunk with finish_reason stop, emit the lifecycle error event, then
unsubscribe, write the sentinel and end the stream. No usage chunk and no
webhook dispatch happen on this path. -/
def handleReject (_cfg : BridgeConfig) (st : BridgeState) (err : String) :
    BridgeState × List StreamAction :=
  if st.closed then (st, [])
  else
    ({ st with closed := true, subscribed := false },
      [StreamAction.sse (Chunk.errorContent ("Error: " ++ err)),
       StreamAction.emitLifecycleError,
       StreamAction.unsub, StreamAction.done, StreamAction.endResponse])

/-- One step of the streaming run. Agent events reach the callback only
while the subscription is installed. -/
def stepBridge (cfg : BridgeConfig) (st : BridgeState) (inp : BridgeInput) :
    BridgeState × List StreamAction :=
  match inp with
  | BridgeInput.agentEvent evt => if st.subscribed then handleAgentEvent cfg st evt else (st, [])
  | BridgeInput.clientClose => handleClose st
  | BridgeInput.agentResolve result => handleResolve cfg st result
  | BridgeInput.agentReject err => handleReject cfg st err

/-- Fold of the step function over a sequence of occurrences, accumulating
the action trace in order. -/
def runBridge (cfg : BridgeConfig) (st : BridgeState) :
    List BridgeInput → BridgeState × List StreamAction
  | [] => (st, [])
  | inp :: rest =>
    ((runBridge cfg (stepBridge cfg st inp).1 rest).1,
      (stepBridge cfg st inp).2 ++ (runBridge cfg (stepBridge cfg st inp).1 rest).2)

/-- The full action trace of one streaming run from the initial state. -/
def bridgeActions (cfg : BridgeConfig) (inputs : List BridgeInput) : List StreamAction :=
  (runBridge cfg initBridgeState inputs).2

/-- The handler state after processing a sequence of occurrences. -/
def bridgeStateAfter (cfg : BridgeConfig) (inputs : List BridgeInput) : BridgeState :=
  (runBridge cfg initBridgeState inputs).1

/-- The SSE chunks of an action trace, in write order. -/
def chunksOf (acts : List StreamAction) : List Chunk :=
  acts.filterMap fun a =>
    match a with
    | StreamAction.sse c => some c
    | _ => none

/-- Recognizer for the role-announcement chunk. -/
def isRoleChunk : Chunk → Bool
  | Chunk.role => true
  | _ => false

/-- Recognizer for a finish_reason-null content chunk. -/
def isContentChunk : Chunk → Bool
  | Chunk.content _ => true
  | _ => false

/-- Recognizer for any chunk whose delta carries a content field, which
includes the error-path chunk. -/
def hasContentDelta : Chunk → Bool
  | Chunk.content _ => true
  | Chunk.errorContent _ => true
  | _ => false

/-- Recognizer for actions that write to the response stream: an SSE data
write, the terminal sentinel, or ending the response. -/
def isStreamWrite : StreamAction → Bool
  | StreamAction.sse _ => true
  | StreamAction.done => true
  | StreamAction.endResponse => true
  | _ => false

/-- Recognizer for a usage-bearing terminal chunk write. -/
def isFinalChunkWrite : StreamAction → Bool
  | StreamAction.sse (Chunk.final _) => true
  | _ => false

/-- Checker for the role-chunk discipline over a chunk trace: walking the
trace with a flag recording whether the role chunk was already seen, every
finish_reason-null content chunk must come after the role chunk and the role
chunk must not repeat. -/
def roleOrder (seen : Bool) : List Chunk → Bool
  | [] => true
  | c :: rest =>
    (if isContentChunk c then seen else true)
      && (if isRoleChunk c then !seen else true)
      && roleOrder (seen || isRoleChunk c) rest

/-- The same discipline read with the wider notion of content chunk used by
the specification text, where the error-path chunk also carries content. -/
def roleOrderAll (seen : Bool) : List Chunk → Bool
  | [] => true
  | c :: rest =>
    (if hasContentDelta c then seen else true)
      && (if isRoleChunk c then !seen else true)
      && roleOrderAll (seen || isRoleChunk c) rest

/-- The text a matching assistant event contributes to the stream: the
extracted content when the event is for this run, on the assistant stream,
and non-empty; nothing otherwise. -/
def matchingDeltaText (cfg : BridgeConfig) (evt : AgentEvent) : Option String :=
  if evt.runId == cfg.runId && evt.stream == "assistant" && !(eventContent evt == "")
  then some (eventContent evt)
  else none

/-! Webhook URL resolution from extensions/usage-webhook/src/service.ts
lines 44-58 and the start branch at lines 182-186. -/

/-- The hardcoded default webhook URL of the usage-webhook extension. -/
def DEFAULT_WEBHOOK_URL : String :=
  "https://mioqlnjhjisubolpscfh.supabase.co/functions/v1/usage-log"

/-- JavaScript falsy-or over an optional string and a fallback: an absent or
empty left operand falls through to the right operand. -/
def falsyOr (a : Option String) (b : String) : String :=
  match a with
  | some s => if s == "" then b else s
  | none => b

/-- resolveWebhookUrl from service.ts: config url, then the
USAGE_WEBHOOK_URL and OPENCLAW_USAGE_WEBHOOK_URL environment variables, each
trimmed, then the hardcoded default; the result is returned as undefined
only when it is the empty string. -/
def resolveWebhookUrl (configUrl envUsageUrl envOpenclawUrl : Option String) : Option String :=
  let url :=
    falsyOr (configUrl.map String.trim)
      (falsyOr (envUsageUrl.map String.trim)
        (falsyOr (envOpenclawUrl.map String.trim) DEFAULT_WEBHOOK_URL))
  if url == "" then none else some url

/-- The disabled branch of createUsageWebhookService.start: taken exactly
when resolveWebhookUrl produced no URL. -/
def startDisabled (configUrl envUsageUrl envOpenclawUrl : Option String) : Bool :=
  (resolveWebhookUrl configUrl envUsageUrl envOpenclawUrl).isNone

/-- Boolean check that a list of naturals is strictly increasing between
consecutive elements. -/
def strictlyIncreasing : List Nat → Bool
  | a :: b :: rest => decide (a < b) && strictlyIncreasing (b :: rest)
  | _ => true

/-! Theorems. General lemmas about run traces come first. -/

/-- Helper: a run over concatenated input sequences is the run of the first
followed by the run of the second from the intermediate state, with the
traces concatenated. -/
theorem runBridge_append (cfg : BridgeConfig) (xs ys : List BridgeInput) :
    ∀ st : BridgeState,
      runBridge cfg st (xs ++ ys)
        = ((runBridge cfg (runBridge cfg st xs).1 ys).1,
           (runBridge cfg st xs).2 ++ (runBridge cfg (runBridge cfg st xs).1 ys).2) := by
  induction xs with
  | nil => intro st; simp [runBridge]
  | cons inp rest ih => intro st; simp [runBridge, ih, List.append_assoc]

/-- Helper: chunk extraction distributes over trace concatenation. -/
theorem chunksOf_append (xs ys : List StreamAction) :
    chunksOf (xs ++ ys) = chunksOf xs ++ chunksOf ys := by
  simp [chunksOf, List.filterMap_append]

/-- Helper: once closed, a step stays closed and can at most re-run the
unsubscribe of the close listener, writing nothing. -/
theorem stepBridge_closed (cfg : BridgeConfig) (st : BridgeState) (inp : BridgeInput)
    (h : st.closed = true) :
    (stepBridge cfg st inp).1.closed = true
    ∧ ∀ a ∈ (stepBridge cfg st inp).2, a = StreamAction.unsub := by
  cases inp with
  | agentEvent evt =>
    cases hs : st.subscribed <;> cases hr : evt.runId != cfg.runId <;>
      simp [stepBridge, handleAgentEvent, h, hs, hr]
  | clientClose => simp [stepBridge, handleClose]
  | agentResolve result => simp [stepBridge, handleResolve, h]
  | agentReject err => simp [stepBridge, handleReject, h]

/-- Helper: once closed, a whole run stays closed and its trace consists at
most of unsubscribe actions: nothing is ever written again. -/
theorem runBridge_closed (cfg : BridgeConfig) (inputs : List BridgeInput) :
    ∀ st : BridgeState, st.closed = true →
      (runBridge cfg st inputs).1.closed = true
      ∧ ∀ a ∈ (runBridge cfg st inputs).2, a = StreamAction.unsub := by
  induction inputs with
  | nil => intro st h; simp [runBridge, h]
  | cons inp rest ih =>
    intro st h
    have hstep := stepBridge_closed cfg st inp h
    have hrec := ih (stepBridge cfg st inp).1 hstep.1
    refine ⟨by simpa [runBridge] using hrec.1, ?_⟩
    intro a ha
    simp [runBridge] at ha
    rcases ha with ha | ha
    · exact hstep.2 a ha
    · exact hrec.2 a ha

/-- Helper: a step that leaves the state open can only have written the role
chunk or a streamed content chunk. -/
theorem stepBridge_open_actions (cfg : BridgeConfig) (st : BridgeState) (inp : BridgeInput)
    (h0 : st.closed = false) (h1 : (stepBridge cfg st inp).1.closed = false) :
    ∀ a ∈ (stepBridge cfg st inp).2,
      a = StreamAction.sse Chunk.role ∨ ∃ s, a = StreamAction.sse (Chunk.content s) := by
  intro a ha
  cases inp with
  | agentEvent evt =>
    cases hs : st.subscribed with
    | false => simp [stepBridge, hs] at ha
    | true =>
      cases hr : evt.runId != cfg.runId with
      | true => simp [stepBridge, hs, handleAgentEvent, hr] at ha
      | false =>
        cases hstream : evt.stream == "assistant" with
        | false => simp [stepBridge, hs, handleAgentEvent, hr, h0, hstream] at ha
        | true =>
          cases hc : eventContent evt == "" with
          | true => simp [stepBridge, hs, handleAgentEvent, hr, h0, hstream, hc] at ha
          | false =>
            cases hw : st.wroteRole with
            | true =>
              simp [stepBridge, hs, handleAgentEvent, hr, h0, hstream, hc, hw] at ha
              exact Or.inr ⟨eventContent evt, ha⟩
            | false =>
              simp [stepBridge, hs, handleAgentEvent, hr, h0, hstream, hc, hw] at ha
              rcases ha with ha | ha
              · exact Or.inl ha
              · exact Or.inr ⟨eventContent evt, ha⟩
  | clientClose => simp [stepBridge, handleClose] at h1
  | agentResolve result => simp [stepBridge, handleResolve, h0] at h1
  | agentReject err => simp [stepBridge, handleReject, h0] at h1

/-- Helper: a run that never closes has written only role and streamed
content chunks: no sentinel, no end of stream, no terminal usage chunk, no
error chunk, no webhook dispatch. -/
theorem runBridge_notClosed (cfg : BridgeConfig) (inputs : List BridgeInput) :
    ∀ st : BridgeState, st.closed = false →
      (runBridge cfg st inputs).1.closed = false →
      ∀ a ∈ (runBridge cfg st inputs).2,
        a = StreamAction.sse Chunk.role ∨ ∃ s, a = StreamAction.sse (Chunk.content s) := by
  induction inputs with
  | nil =>
    intro st h0 h1 a ha
    simp [runBridge] at ha
  | cons inp rest ih =>
    intro st h0 h1 a ha
    simp only [runBridge] at h1 ha
    have hstep1 : (stepBridge cfg st inp).1.closed = false := by
      cases hcl : (stepBridge cfg st inp).1.closed with
      | false => rfl
      | true =>
        have habs := (runBridge_closed cfg rest (stepBridge cfg st inp).1 hcl).1
        simp [habs] at h1
    rw [List.mem_append] at ha
    rcases ha with ha | ha
    · exact stepBridge_open_actions cfg st inp h0 hstep1 a ha
    · exact ih (stepBridge cfg st inp).1 hstep1 h1 a ha

/-- Helper: the role-order checker splits over concatenation, threading the
seen flag through the first part. -/
theorem roleOrder_append (xs ys : List Chunk) :
    ∀ seen, roleOrder seen (xs ++ ys)
      = (roleOrder seen xs && roleOrder (seen || xs.any isRoleChunk) ys) := by
  induction xs with
  | nil => intro seen; simp [roleOrder]
  | cons c rest ih =>
    intro seen
    simp [roleOrder, ih, Bool.and_assoc, Bool.or_assoc]

/-- Helper: each step writes chunks respecting the role discipline relative
to the wroteRole flag, and the flag tracks exactly whether a role chunk has
been appended. -/
theorem stepBridge_roleOrder (cfg : BridgeConfig) (st : BridgeState) (inp : BridgeInput) :
    roleOrder st.wroteRole (chunksOf (stepBridge cfg st inp).2) = true
    ∧ (st.wroteRole || (chunksOf (stepBridge cfg st inp).2).any isRoleChunk)
        = (stepBridge cfg st inp).1.wroteRole := by
  cases inp with
  | agentEvent evt =>
    cases hs : st.subscribed with
    | false => simp [stepBridge, hs, chunksOf, roleOrder]
    | true =>
      cases hr : evt.runId != cfg.runId with
      | true => simp [stepBridge, hs, handleAgentEvent, hr, chunksOf, roleOrder]
      | false =>
        cases hcl : st.closed with
        | true => simp [stepBridge, hs, handleAgentEvent, hr, hcl, chunksOf, roleOrder]
        | false =>
          cases hstream : evt.stream == "assistant" with
          | false =>
            simp [stepBridge, hs, handleAgentEvent, hr, hcl, hstream, chunksOf, roleOrder]
          | true =>
            cases hc : eventContent evt == "" with
            | true =>
              simp [stepBridge, hs, handleAgentEvent, hr, hcl, hstream, hc, chunksOf, roleOrder]
            | false =>
              cases hw : st.wroteRole <;>
                simp [stepBridge, hs, handleAgentEvent, hr, hcl, hstream, hc, hw, chunksOf,
                  roleOrder, isRoleChunk, isContentChunk]
  | clientClose => simp [stepBridge, handleClose, chunksOf, roleOrder]
  | agentResolve result =>
    cases hcl : st.closed with
    | true => simp [stepBridge, handleResolve, hcl, chunksOf, roleOrder]
    | false =>
      cases hwb : webhookConfigured cfg.usageWebhookUrl with
      | false =>
        cases hsaw : st.sawAssistantDelta with
        | true =>
          simp [stepBridge, handleResolve, hcl, hwb, hsaw, chunksOf, roleOrder, isRoleChunk,
            isContentChunk]
        | false =>
          cases hw : st.wroteRole <;>
            simp [stepBridge, handleResolve, hcl, hwb, hsaw, hw, chunksOf, roleOrder,
              isRoleChunk, isContentChunk]
      | true =>
        cases hsaw : st.sawAssistantDelta with
        | true =>
          simp [stepBridge, handleResolve, hcl, hwb, hsaw, chunksOf, roleOrder, isRoleChunk,
            isContentChunk]
        | false =>
          cases hw : st.wroteRole <;>
            simp [stepBridge, handleResolve, hcl, hwb, hsaw, hw, chunksOf, roleOrder,
              isRoleChunk, isContentChunk]
  | agentReject err =>
    cases hcl : st.closed <;>
      simp [stepBridge, handleReject, hcl, chunksOf, roleOrder, isRoleChunk, isContentChunk]

/-- Helper: over any whole run, the chunk trace respects the role discipline
relative to the starting wroteRole flag. -/
theorem runBridge_roleOrder (cfg : BridgeConfig) (inputs : List BridgeInput) :
    ∀ st : BridgeState, roleOrder st.wroteRole (chunksOf (runBridge cfg st inputs).2) = true := by
  induction inputs with
  | nil => intro st; simp [runBridge, chunksOf, roleOrder]
  | cons inp rest ih =>
    intro st
    have hstep := stepBridge_roleOrder cfg st inp
    have hrec := ih (stepBridge cfg st inp).1
    simp only [runBridge, chunksOf_append, roleOrder_append]
    rw [hstep.1, hstep.2, hrec]
    rfl

/-- Helper: an agent-event step in an open, subscribed state contributes
exactly the matching non-empty delta text as a content chunk, and leaves the
stream open and subscribed. -/
theorem stepBridge_event_content (cfg : BridgeConfig) (st : BridgeState) (evt : AgentEvent)
    (h0 : st.closed = false) (h1 : st.subscribed = true) :
    ((chunksOf (stepBridge cfg st (BridgeInput.agentEvent evt)).2).filter isContentChunk
        = (matchingDeltaText cfg evt).toList.map Chunk.content)
    ∧ (stepBridge cfg st (BridgeInput.agentEvent evt)).1.closed = false
    ∧ (stepBridge cfg st (BridgeInput.agentEvent evt)).1.subscribed = true := by
  cases heq : evt.runId == cfg.runId with
  | false =>
    simp [stepBridge, h1, handleAgentEvent, bne, heq, h0, chunksOf, matchingDeltaText]
  | true =>
    cases hstream : evt.stream == "assistant" with
    | false =>
      simp [stepBridge, h1, handleAgentEvent, bne, heq, h0, hstream, chunksOf,
        matchingDeltaText]
    | true =>
      cases hc : eventContent evt == "" with
      | true =>
        simp [stepBridge, h1, handleAgentEvent, bne, heq, h0, hstream, hc, chunksOf,
          matchingDeltaText]
      | false =>
        cases hw : st.wroteRole <;>
          simp [stepBridge, h1, handleAgentEvent, bne, heq, h0, hstream, hc, hw, chunksOf,
            matchingDeltaText, isContentChunk, isRoleChunk]

/-- Helper: a run fed only agent events streams exactly the matching
non-empty delta texts, as content chunks, in arrival order. -/
theorem runBridge_delta_chunks (cfg : BridgeConfig) (evts : List AgentEvent) :
    ∀ st : BridgeState, st.closed = false → st.subscribed = true →
      (chunksOf (runBridge cfg st (evts.map BridgeInput.agentEvent)).2).filter isContentChunk
        = (evts.filterMap (matchingDeltaText cfg)).map Chunk.content := by
  induction evts with
  | nil => intro st h0 h1; simp [runBridge, chunksOf]
  | cons evt rest ih =>
    intro st h0 h1
    have hstep := stepBridge_event_content cfg st evt h0 h1
    have hrec := ih (stepBridge cfg st (BridgeInput.agentEvent evt)).1 hstep.2.1 hstep.2.2
    simp only [List.map_cons, runBridge, chunksOf_append, List.filter_append]
    rw [hstep.1, hrec]
    cases hm : matchingDeltaText cfg evt <;> simp [hm]

/-- Claim C1: extractUsageFromResult is total and agrees pointwise with the
usage contract of spec section 4.1 applied to the optional chain
result?.meta?.agentMeta?.usage: the all-zero triple when the result or its
usage record is absent, otherwise prompt_tokens = input + cacheRead +
cacheWrite, completion_tokens = output, and total_tokens = total when
present, else prompt_tokens + completion_tokens, missing fields read as 0. -/
theorem extractUsage_matches_spec (result : Option AgentCommandResult) :
    extractUsageFromResult result = specUsageExtract (usageOfResult result) := by
  cases husage : usageOfResult result with
  | none => simp [extractUsageFromResult, specUsageExtract, husage]
  | some u =>
    cases ht : u.total <;>
      simp [extractUsageFromResult, specUsageExtract, husage, ht, Option.getD]

/-- Helper: a 5xx response, a timeout, or a transport error is classified as
retryable by sendWithRetry. -/
theorem classify_retryable_of {o : AttemptOutcome}
    (h : o = AttemptOutcome.exn ∨ ∃ s, o = AttemptOutcome.httpError s ∧ 500 ≤ s) :
    classifyAttempt o = AttemptClass.retryable := by
  rcases h with h | ⟨s, h, hs⟩
  · rw [h]
    rfl
  · rw [h]
    simp only [classifyAttempt]
    rw [if_neg (by omega)]

/-- Helper: the retry loop under all-retryable outcomes performs every
allowed attempt, sleeps the exponential backoff after each non-final
attempt, logs the final failure once, and fails. -/
theorem retryLoop_all_retryable (outcomes : Nat → AttemptOutcome) :
    ∀ remaining attempt,
      (∀ j, j ≤ remaining → classifyAttempt (outcomes (attempt + j)) = AttemptClass.retryable) →
      retryLoop outcomes attempt remaining =
        { success := false, attempts := remaining + 1,
          delays := (List.range remaining).map (fun j => retryDelay (attempt + j)),
          errorLogs := 1 } := by
  intro remaining
  induction remaining with
  | zero =>
    intro attempt h
    have h0 := h 0 (Nat.le_refl 0)
    rw [Nat.add_zero] at h0
    simp [retryLoop, h0]
  | succ r ih =>
    intro attempt h
    have h0 := h 0 (Nat.zero_le _)
    rw [Nat.add_zero] at h0
    have hrec := ih (attempt + 1) (fun j hj => by
      have hj2 := h (j + 1) (Nat.succ_le_succ hj)
      have heq : attempt + (j + 1) = attempt + 1 + j := by omega
      rwa [heq] at hj2)
    have hmap : (List.range r).map (fun j => retryDelay (attempt + 1 + j))
        = (List.range r).map (fun j => retryDelay (attempt + (j + 1))) := by
      apply List.map_congr_left
      intro x _
      congr 1
      omega
    simp [retryLoop, h0, hrec, hmap, List.range_succ_eq_map, Function.comp]

/-- Helper: the backoff delay is monotone in the attempt index. -/
theorem retryDelay_mono (i : Nat) : retryDelay i ≤ retryDelay (i + 1) := by
  unfold retryDelay
  have h2 : (100 : Nat) * 2 ^ i ≤ 100 * 2 ^ (i + 1) :=
    Nat.mul_le_mul (Nat.le_refl 100) (Nat.pow_le_pow_right (by norm_num) (Nat.le_succ i))
  exact min_le_min h2 (Nat.le_refl 5000)

/-- Helper: consecutive backoff delays strictly increase until the 5000ms
cap is reached. -/
theorem retryDelay_strict_or_cap (i : Nat) :
    retryDelay i < retryDelay (i + 1) ∨ retryDelay (i + 1) = 5000 := by
  by_cases h : 100 * 2 ^ (i + 1) < 5000
  · left
    unfold retryDelay
    rw [min_eq_left (Nat.le_of_lt h)]
    apply Nat.lt_of_le_of_lt (Nat.min_le_left _ _)
    rw [pow_succ]
    have hpos : 0 < (2 : Nat) ^ i := pow_pos (by norm_num) i
    omega
  · right
    unfold retryDelay
    exact min_eq_right (Nat.le_of_not_lt h)

/-- Claim C7 counterexample: with maxRetries = 8 and every attempt failing
with HTTP 500, the slept delays are not strictly increasing, since the
seventh and eighth delays both equal the 5000ms cap. -/
theorem sendWithRetry_strict_increase_cex :
    (sendWithRetry (fun _ => AttemptOutcome.httpError 500) 8).delays
        = [100, 200, 400, 800, 1600, 3200, 5000, 5000]
      ∧ strictlyIncreasing (sendWithRetry (fun _ => AttemptOutcome.httpError 500) 8).delays
          = false := by
  constructor
  · decide
  · decide

/-- Claim C7 (amended): when every attempt fails retryably (5xx, timeout or
transport error), sendWithRetry makes exactly maxRetries + 1 attempts,
returns false, logs one final failure, and sleeps
min(100ms * 2^i, 5000ms) after attempt i; these delays are non-decreasing,
capped at 5000ms, and strictly increasing while below the cap. -/
theorem sendWithRetry_all_retryable (outcomes : Nat → AttemptOutcome) (maxRetries : Nat)
    (h : ∀ i, i ≤ maxRetries →
      outcomes i = AttemptOutcome.exn ∨ ∃ s, outcomes i = AttemptOutcome.httpError s ∧ 500 ≤ s) :
    sendWithRetry outcomes maxRetries =
      { success := false, attempts := maxRetries + 1,
        delays := (List.range maxRetries).map retryDelay, errorLogs := 1 }
    ∧ List.Chain' (fun a b => a ≤ b ∧ (a < b ∨ b = 5000))
        ((List.range maxRetries).map retryDelay)
    ∧ ∀ d ∈ (List.range maxRetries).map retryDelay, d ≤ 5000 := by
  refine ⟨?_, ?_, ?_⟩
  · have hloop := retryLoop_all_retryable outcomes maxRetries 0 (fun j hj => by
      rw [Nat.zero_add]
      exact classify_retryable_of (h j hj))
    rw [sendWithRetry, hloop]
    have hmap : (List.range maxRetries).map (fun j => retryDelay (0 + j))
        = (List.range maxRetries).map retryDelay := by
      apply List.map_congr_left
      intro x _
      rw [Nat.zero_add]
    rw [hmap]
  · rw [List.chain'_map]
    cases maxRetries with
    | zero => simp
    | succ m =>
      rw [List.chain'_range_succ]
      intro i _
      exact ⟨retryDelay_mono i, retryDelay_strict_or_cap i⟩
  · intro d hd
    rw [List.mem_map] at hd
    obtain ⟨i, _, rfl⟩ := hd
    exact Nat.min_le_right _ _

/-- Witness for C7: three retries on constant HTTP 500 give four attempts,
delays 100, 200, 400, one final error log and a false return. -/
theorem sendWithRetry_all_retryable_witness :
    sendWithRetry (fun _ => AttemptOutcome.httpError 500) 3 =
      { success := false, attempts := 4, delays := [100, 200, 400], errorLogs := 1 } := by
  have h := sendWithRetry_all_retryable (fun _ => AttemptOutcome.httpError 500) 3
    (fun i _ => Or.inr ⟨500, rfl, by norm_num⟩)
  rw [h.1]
  rfl

/-- Claim C8: a first attempt answered with an HTTP 4xx status makes
sendWithRetry stop after exactly one attempt with no backoff sleep, log the
failure once, and return false, whatever maxRetries is. -/
theorem sendWithRetry_client_error (outcomes : Nat → AttemptOutcome) (maxRetries : Nat)
    (status : Nat) (h0 : outcomes 0 = AttemptOutcome.httpError status)
    (h4 : 400 ≤ status ∧ status < 500) :
    sendWithRetry outcomes maxRetries =
      { success := false, attempts := 1, delays := [], errorLogs := 1 } := by
  have hc : classifyAttempt (outcomes 0) = AttemptClass.clientError := by
    rw [h0]
    simp only [classifyAttempt]
    rw [if_pos h4]
  cases maxRetries <;> simp [sendWithRetry, retryLoop, hc]

/-- Witness for C8: a 404 on the first attempt with maxRetries = 3 yields
one attempt, no delays, one error log, and failure. -/
theorem sendWithRetry_client_error_witness :
    sendWithRetry (fun _ => AttemptOutcome.httpError 404) 3 =
      { success := false, attempts := 1, delays := [], errorLogs := 1 } :=
  sendWithRetry_client_error (fun _ => AttemptOutcome.httpError 404) 3 404 rfl (by omega)

/-- Helper: the falsy-or chain cannot produce the empty string when its
fallback is non-empty. -/
theorem falsyOr_ne_empty (a : Option String) (b : String) (hb : (b == "") = false) :
    ((falsyOr a b) == "") = false := by
  unfold falsyOr
  cases a with
  | none => exact hb
  | some s => cases hs : s == "" <;> simp [hs, hb]

/-- Claim C10: when neither the config url nor either environment variable
supplies a non-empty URL, resolveWebhookUrl falls back to the hardcoded
default Supabase endpoint instead of returning undefined; consequently the
disabled branch of createUsageWebhookService.start is unreachable for every
input whatsoever. -/
theorem resolveWebhookUrl_default (c e1 e2 : Option String)
    (h1 : (c.map String.trim).getD "" = "")
    (h2 : (e1.map String.trim).getD "" = "")
    (h3 : (e2.map String.trim).getD "" = "") :
    resolveWebhookUrl c e1 e2 = some DEFAULT_WEBHOOK_URL
    ∧ ∀ c' e1' e2' : Option String, startDisabled c' e1' e2' = false := by
  constructor
  · have step : ∀ (x : Option String), (x.map String.trim).getD "" = "" →
        ∀ b, falsyOr (x.map String.trim) b = b := by
      intro x hx b
      cases x with
      | none => rfl
      | some s =>
        simp [Option.map, Option.getD] at hx
        simp [falsyOr, hx]
    unfold resolveWebhookUrl
    rw [step c h1, step e1 h2, step e2 h3]
    have hdef : (DEFAULT_WEBHOOK_URL == "") = false := by decide
    simp [hdef]
  · intro c' e1' e2'
    have hne := falsyOr_ne_empty (c'.map String.trim)
      (falsyOr (e1'.map String.trim) (falsyOr (e2'.map String.trim) DEFAULT_WEBHOOK_URL))
      (falsyOr_ne_empty _ _ (falsyOr_ne_empty _ _ (by decide)))
    unfold startDisabled resolveWebhookUrl
    simp [hne]

/-- Witness for C10: with no config url and no environment variables at all,
the resolved webhook URL is the hardcoded default endpoint. -/
theorem resolveWebhookUrl_default_witness :
    resolveWebhookUrl none none none = some DEFAULT_WEBHOOK_URL :=
  (resolveWebhookUrl_default none none none rfl rfl rfl).1

/-- Claim C2 counterexample: a streaming run whose agent invocation fails
before any delta writes a chunk whose delta carries content (the error
chunk) while no role-announcement chunk is ever written, so the role chunk
does not precede every content-carrying chunk of the run. -/
theorem role_before_error_content_cex :
    roleOrderAll false
        (chunksOf (bridgeActions { runId := "run", usageWebhookUrl := none }
          [BridgeInput.agentReject "boom"])) = false
    ∧ (chunksOf (bridgeActions { runId := "run", usageWebhookUrl := none }
          [BridgeInput.agentReject "boom"])).any hasContentDelta = true
    ∧ (chunksOf (bridgeActions { runId := "run", usageWebhookUrl := none }
          [BridgeInput.agentReject "boom"])).any isRoleChunk = false := by
  refine ⟨by decide, by decide, by decide⟩

/-- Claim C2 (amended): in every streaming run the role-announcement chunk
is written at most once and precedes every content chunk with
finish_reason null (streamed delta or synthesized content); the error-path
content chunk with finish_reason stop is exempt and can appear without any
preceding role chunk. -/
theorem role_chunk_once_and_first (cfg : BridgeConfig) (inputs : List BridgeInput) :
    roleOrder false (chunksOf (bridgeActions cfg inputs)) = true := by
  have h := runBridge_roleOrder cfg inputs initBridgeState
  simpa [bridgeActions, initBridgeState] using h

/-- Claim C3: once the client disconnect has been processed (closed set and
the subscription removed), the rest of the run writes nothing at all: every
later action is at most the close listener re-running unsubscribe, never an
SSE chunk, the sentinel, or an end of stream, even when the agent invocation
later resolves or rejects. -/
theorem no_writes_after_disconnect (cfg : BridgeConfig) (pre post : List BridgeInput) :
    ∃ tail,
      bridgeActions cfg (pre ++ BridgeInput.clientClose :: post)
        = bridgeActions cfg (pre ++ [BridgeInput.clientClose]) ++ tail
      ∧ (∀ a ∈ tail, a = StreamAction.unsub)
      ∧ ∀ a ∈ tail, isStreamWrite a = false := by
  have hsplit : pre ++ BridgeInput.clientClose :: post
      = (pre ++ [BridgeInput.clientClose]) ++ post := by
    simp
  rw [hsplit, bridgeActions, runBridge_append]
  have hclosed1 :
      (runBridge cfg initBridgeState (pre ++ [BridgeInput.clientClose])).1.closed = true := by
    rw [runBridge_append]
    simp [runBridge, stepBridge, handleClose]
  have hall := (runBridge_closed cfg post
    (runBridge cfg initBridgeState (pre ++ [BridgeInput.clientClose])).1 hclosed1).2
  exact ⟨_, rfl, hall, fun a ha => by rw [hall a ha]; rfl⟩

/-- Helper: a successful resolution in an open state with no delta observed
writes the role chunk when needed, then the synthesized content chunk, then
the terminal usage chunk. -/
theorem stepBridge_resolve_chunks (cfg : BridgeConfig) (st : BridgeState)
    (result : Option AgentCommandResult)
    (hclosed : st.closed = false) (hsaw : st.sawAssistantDelta = false) :
    chunksOf (stepBridge cfg st (BridgeInput.agentResolve result)).2
      = (if st.wroteRole then [] else [Chunk.role])
        ++ [Chunk.content (synthesizeContent (result.bind fun r => r.payloads)),
            Chunk.final (extractUsageFromResult result)] := by
  cases hw : st.wroteRole <;> cases hwb : webhookConfigured cfg.usageWebhookUrl <;>
    simp [stepBridge, handleResolve, hclosed, hsaw, hw, hwb, chunksOf]

/-- Claim C4: a run that resolves successfully with no delta observed and
the client still connected appends, after the chunks already written,
exactly the role chunk (when not yet written), one synthesized content
chunk whose text joins the non-empty payload texts with a blank line (or
the fixed fallback when payloads are absent or empty), and then the
terminal usage chunk. -/
theorem synthesized_content_chunk (cfg : BridgeConfig) (pre : List BridgeInput)
    (result : Option AgentCommandResult)
    (hclosed : (bridgeStateAfter cfg pre).closed = false)
    (hsaw : (bridgeStateAfter cfg pre).sawAssistantDelta = false) :
    chunksOf (bridgeActions cfg (pre ++ [BridgeInput.agentResolve result]))
      = chunksOf (bridgeActions cfg pre)
        ++ (if (bridgeStateAfter cfg pre).wroteRole then [] else [Chunk.role])
        ++ [Chunk.content (synthesizeContent (result.bind fun r => r.payloads)),
            Chunk.final (extractUsageFromResult result)] := by
  simp only [bridgeStateAfter] at hclosed hsaw ⊢
  rw [bridgeActions, runBridge_append, chunksOf_append, bridgeActions]
  simp only [runBridge, List.append_nil]
  rw [stepBridge_resolve_chunks cfg (runBridge cfg initBridgeState pre).1 result hclosed hsaw]
  simp [List.append_assoc]

/-- Witness for C4: a fresh run resolving with one payload text Done. and no
usage telemetry emits role, the synthesized content chunk, and the all-zero
terminal usage chunk. -/
theorem synthesized_content_chunk_witness :
    chunksOf (bridgeActions { runId := "run", usageWebhookUrl := none }
        [BridgeInput.agentResolve
          (some { payloads := some [{ text := some "Done." }], meta := none })])
      = [Chunk.role, Chunk.content "Done.",
         Chunk.final { prompt_tokens := 0, completion_tokens := 0, total_tokens := 0 }] := by
  have h := synthesized_content_chunk { runId := "run", usageWebhookUrl := none } []
    (some { payloads := some [{ text := some "Done." }], meta := none }) rfl rfl
  exact h

/-- Claim C5 counterexample: an assistant event for the active run, arriving
while the stream is open, whose delta is the empty string, produces no
chunk at all, although the claim as stated promises one content chunk per
matching assistant-delta event. -/
theorem content_chunk_per_delta_cex :
    bridgeActions { runId := "run", usageWebhookUrl := none }
        [BridgeInput.agentEvent
          { runId := "run", stream := "assistant", delta := some "", text := none }]
      = [] := by
  decide

/-- Claim C5 (amended): for assistant events carrying non-empty extracted
text (data.delta when a string, else data.text) that match the active run,
exactly one content chunk per event is emitted, in arrival order, with no
reordering and no coalescing; events with empty or missing text, events of
other runs, and non-assistant events contribute nothing. -/
theorem content_chunks_in_arrival_order (cfg : BridgeConfig) (evts : List AgentEvent) :
    (chunksOf (bridgeActions cfg (evts.map BridgeInput.agentEvent))).filter isContentChunk
      = (evts.filterMap (matchingDeltaText cfg)).map Chunk.content :=
  runBridge_delta_chunks cfg evts initBridgeState rfl rfl

/-- Claim C6: an agent failure with the client still connected appends
exactly the error content chunk (finish_reason stop), the lifecycle error
emission, the unsubscribe, the sentinel, and the end of stream; over the
whole run the sentinel and the end of stream each occur exactly once and no
usage-bearing chunk is ever written. -/
theorem error_chunk_on_failure (cfg : BridgeConfig) (pre : List BridgeInput) (err : String)
    (hclosed : (bridgeStateAfter cfg pre).closed = false) :
    bridgeActions cfg (pre ++ [BridgeInput.agentReject err])
      = bridgeActions cfg pre
        ++ [StreamAction.sse (Chunk.errorContent ("Error: " ++ err)),
            StreamAction.emitLifecycleError, StreamAction.unsub,
            StreamAction.done, StreamAction.endResponse]
    ∧ (bridgeActions cfg (pre ++ [BridgeInput.agentReject err])).countP
        (fun a => a == StreamAction.done) = 1
    ∧ (bridgeActions cfg (pre ++ [BridgeInput.agentReject err])).countP
        (fun a => a == StreamAction.endResponse) = 1
    ∧ (bridgeActions cfg (pre ++ [BridgeInput.agentReject err])).countP
        isFinalChunkWrite = 0 := by
  simp only [bridgeStateAfter] at hclosed
  have hbatch : bridgeActions cfg (pre ++ [BridgeInput.agentReject err])
      = bridgeActions cfg pre
        ++ [StreamAction.sse (Chunk.errorContent ("Error: " ++ err)),
            StreamAction.emitLifecycleError, StreamAction.unsub,
            StreamAction.done, StreamAction.endResponse] := by
    rw [bridgeActions, runBridge_append, bridgeActions]
    simp [runBridge, stepBridge, handleReject, hclosed]
  have hall := runBridge_notClosed cfg pre initBridgeState rfl hclosed
  have hzero : ∀ p : StreamAction → Bool,
      (∀ s, p (StreamAction.sse Chunk.role) = false
        ∧ p (StreamAction.sse (Chunk.content s)) = false) →
      (bridgeActions cfg pre).countP p = 0 := by
    intro p hp
    rw [List.countP_eq_zero]
    intro a ha
    rcases hall a ha with h1 | ⟨s, h1⟩ <;> subst h1
    · simp [(hp "").1]
    · simp [(hp s).2]
  refine ⟨hbatch, ?_, ?_, ?_⟩ <;>
    rw [hbatch, List.countP_append] <;>
      simp [hzero, isFinalChunkWrite]

/-- Witness for C6: a fresh run whose agent invocation rejects with boom
writes the error chunk, the lifecycle error, the unsubscribe, the sentinel
and the end of stream, in that order. -/
theorem error_chunk_on_failure_witness :
    bridgeActions { runId := "run", usageWebhookUrl := none } [BridgeInput.agentReject "boom"]
      = [StreamAction.sse (Chunk.errorContent "Error: boom"),
         StreamAction.emitLifecycleError, StreamAction.unsub,
         StreamAction.done, StreamAction.endResponse] := by
  have h := error_chunk_on_failure { runId := "run", usageWebhookUrl := none } [] "boom" rfl
  exact h.1

/-- Claim C9 counterexample: the gateway helper that both response paths
actually call performs no retry and installs no timeout: on an HTTP 500
failure it stops after its single attempt, contrary to the claimed bounded
per-attempt timeout and exponential-backoff retry. -/
theorem webhook_retry_cex :
    ¬ (1 < (sendUsageWebhook (AttemptOutcome.httpError 500)).attempts
        ∨ (sendUsageWebhook (AttemptOutcome.httpError 500)).timeoutMs.isSome = true) := by
  decide

/-- Claim C9 (amended): when a run completes successfully with a usage
webhook URL configured, the streaming finalization dispatches exactly one
webhook notification and the non-streaming responder marks the webhook as
sent, both fire-and-forget; the helper they call, sendUsageWebhook, makes
exactly one POST attempt with no backoff delay and no per-attempt timeout
for every outcome, logging failures instead of retrying. -/
theorem webhook_fire_and_forget (rid url : String) (h : (url == "") = false)
    (pre : List BridgeInput) (result : Option AgentCommandResult) (o : AttemptOutcome)
    (hclosed : (bridgeStateAfter { runId := rid, usageWebhookUrl := some url } pre).closed
      = false) :
    ((stepBridge { runId := rid, usageWebhookUrl := some url }
        (bridgeStateAfter { runId := rid, usageWebhookUrl := some url } pre)
        (BridgeInput.agentResolve result)).2.countP
          (fun a => a == StreamAction.webhook)) = 1
    ∧ (respondNonStreaming (some url) result).webhookSent = true
    ∧ (sendUsageWebhook o).attempts = 1
    ∧ (sendUsageWebhook o).delays = []
    ∧ (sendUsageWebhook o).timeoutMs = none := by
  refine ⟨?_, ?_, ?_, ?_, ?_⟩
  · cases hsaw : (bridgeStateAfter { runId := rid, usageWebhookUrl := some url }
        pre).sawAssistantDelta <;>
      cases hw : (bridgeStateAfter { runId := rid, usageWebhookUrl := some url }
        pre).wroteRole <;>
        simp [stepBridge, handleResolve, hclosed, hsaw, hw, webhookConfigured, h]
  · simp [respondNonStreaming, webhookConfigured, h]
  · cases o <;> rfl
  · cases o <;> rfl
  · cases o <;> rfl

/-- Witness for C9: with a configured webhook URL, a fresh run resolving
successfully dispatches exactly one webhook action and the non-streaming
responder marks the webhook as sent. -/
theorem webhook_fire_and_forget_witness :
    ((stepBridge { runId := "run", usageWebhookUrl := some "https://example.com/hook" }
        (bridgeStateAfter { runId := "run", usageWebhookUrl := some "https://example.com/hook" }
          [])
        (BridgeInput.agentResolve none)).2.countP
          (fun a => a == StreamAction.webhook)) = 1
    ∧ (respondNonStreaming (some "https://example.com/hook") none).webhookSent = true := by
  have h := webhook_fire_and_forget "run" "https://example.com/hook" (by decide) [] none
    AttemptOutcome.ok rfl
  exact ⟨h.1, h.2.1⟩

end OpenClaw
